import Mathlib

/-!
Verification of the PocketMesh reference-byte generator
(`Scripts/generate_reference_bytes.py`) against its specification.

Bytes are modelled as `List Nat` (each element < 256 by construction).
`int.to_bytes(n, "little")` becomes `toBytesLE`; the signed variant uses
two's complement within the declared width.  Python strings occurring in
the script are ASCII, so UTF-8 encoding is the list of code points.

The two generator functions are pure in the source (the `datetime` import
is never used to sample a clock); each is embedded with an explicit
`ambient : Nat` parameter standing for the ambient clock / entropy an
impure implementation could have read, so that determinism is the provable
statement that the output does not depend on it.
-/

namespace PocketMesh

/-- `n.to_bytes(len, "little")`: unsigned little-endian encoding, `len` bytes. -/
def toBytesLE (len : Nat) (n : Nat) : List Nat :=
  match len with
  | 0 => []
  | l + 1 => n % 256 :: toBytesLE l (n / 256)

/-- `z.to_bytes(len, "little", signed=True)`: two's-complement little-endian. -/
def toBytesLEsigned (len : Nat) (z : Int) : List Nat :=
  toBytesLE len (z % ((2 : Int) ^ (8 * len))).toNat

/-- Unsigned big-endian encoding, `len` bytes (Cayenne LPP byte order). -/
def toBytesBE (len : Nat) (n : Nat) : List Nat :=
  (toBytesLE len n).reverse

/-- Two's-complement big-endian encoding, `len` bytes (Cayenne LPP byte order). -/
def toBytesBEsigned (len : Nat) (z : Int) : List Nat :=
  (toBytesLEsigned len z).reverse

/-- `s.encode("utf-8")` for the ASCII strings appearing in the script. -/
def utf8ascii (s : String) : List Nat :=
  s.data.map Char.toNat

/-- `b.ljust(w, b'\x00')`: right-pad a byte string with zero bytes to width `w`
(no-op when already at least `w` long, as in Python). -/
def ljustBytes (w : Nat) (b : List Nat) : List Nat :=
  b ++ List.replicate (w - b.length) 0

/-- The 32-byte zero-padded destination built by the script as
`bytes.fromhex(hexstr.ljust(64, '0'))`: for a destination given as an
even-length hex string of at most 32 bytes this is exactly the byte string
right-padded with zero bytes to 32 bytes. -/
def dst32pad (pfx : List Nat) : List Nat :=
  ljustBytes 32 pfx

/-- Reference timestamp: 2024-01-01 00:00:00 UTC (module constant). -/
def REFERENCE_TIMESTAMP : Nat := 1704067200

/-- The 6-byte destination `bytes.fromhex("0123456789AB")`. -/
def dst : List Nat := [0x01, 0x23, 0x45, 0x67, 0x89, 0xAB]

/-- `sendLogin` frame: `bytes([0x1A]) + dst32 + password.encode("utf-8")`. -/
def sendLoginFrame (pfx pw : List Nat) : List Nat :=
  [0x1A] ++ dst32pad pfx ++ pw

/-- `sendLogout` frame: `bytes([0x1D]) + dst32`. -/
def sendLogoutFrame (pfx : List Nat) : List Nat :=
  [0x1D] ++ dst32pad pfx

/-- `sendStatusRequest` frame: `bytes([0x1B]) + dst32`. -/
def sendStatusRequestFrame (pfx : List Nat) : List Nat :=
  [0x1B] ++ dst32pad pfx

/-- `pathDiscovery` frame: `bytes([0x34, 0x00]) + dst32`. -/
def pathDiscoveryFrame (pfx : List Nat) : List Nat :=
  [0x34, 0x00] ++ dst32pad pfx

/-- `generate_packet_builder_references`: the ordered mapping of reference
names to command frames, line by line from the script.  `ambient` models the
ambient clock/entropy (never read by the source).  The `setCoords` integers
are `int(37.7749 * 1e6) = 37774900` and `int(-122.4194 * 1e6) = -122419400`
(both float products land exactly on the integer), and the `setRadio`
integers are `int(906.875 * 1000) = 906875` and `int(250.0 * 1000) = 250000`. -/
def generate_packet_builder_references (ambient : Nat) : List (String × List Nat) :=
  let reserved := utf8ascii ("      ")
  let client_id := utf8ascii ("MCore")
  let ts := toBytesLE 4 REFERENCE_TIMESTAMP
  let name_bytes := ljustBytes 32 (utf8ascii ("General"))
  let secret := List.range 16
  [ ("appStart", [0x01, 0x03] ++ reserved ++ client_id),
    ("deviceQuery", [0x16, 0x03]),
    ("getBattery", [0x14]),
    ("getTime", [0x05]),
    ("setTime_1704067200", [0x06] ++ toBytesLE 4 REFERENCE_TIMESTAMP),
    ("setName_TestNode", [0x08] ++ utf8ascii ("TestNode")),
    ("setCoords_SF",
      [0x0E] ++ toBytesLEsigned 4 37774900 ++ toBytesLEsigned 4 (-122419400)
        ++ toBytesLE 4 0),
    ("setTxPower_20", [0x0C] ++ toBytesLE 4 20),
    ("setRadio_default",
      [0x0B] ++ toBytesLE 4 906875 ++ toBytesLE 4 250000
        ++ toBytesLE 1 11 ++ toBytesLE 1 8),
    ("sendAdvertisement", [0x07]),
    ("sendAdvertisement_flood", [0x07, 0x01]),
    ("reboot", [0x13] ++ utf8ascii ("reboot")),
    ("getContacts", [0x04]),
    ("getMessage", [0x0A]),
    ("sendMessage_Hello", [0x02, 0x00, 0x00] ++ ts ++ dst ++ utf8ascii ("Hello")),
    ("sendCommand_status", [0x02, 0x01, 0x00] ++ ts ++ dst ++ utf8ascii ("status")),
    ("sendChannelMessage_0_Hi", [0x03, 0x00, 0x00] ++ ts ++ utf8ascii ("Hi")),
    ("sendLogin", sendLoginFrame dst (utf8ascii ("secret"))),
    ("sendLogout", sendLogoutFrame dst),
    ("sendStatusRequest", sendStatusRequestFrame dst),
    ("getChannel_0", [0x1F, 0x00]),
    ("setChannel_0_General", [0x20, 0x00] ++ name_bytes ++ secret),
    ("getStatsCore", [0x38, 0x00]),
    ("getStatsRadio", [0x38, 0x01]),
    ("getStatsPackets", [0x38, 0x02]),
    ("getSelfTelemetry", [0x27, 0x00, 0x00, 0x00]),
    ("exportPrivateKey", [0x17]),
    ("signStart", [0x21]),
    ("signFinish", [0x23]),
    ("pathDiscovery", pathDiscoveryFrame dst),
    ("sendTrace", [0x24] ++ toBytesLE 4 12345 ++ toBytesLE 4 67890 ++ [0x00]) ]

/-- `generate_lpp_references_manual`: the manual Cayenne LPP reference
entries, literal bytes from the script.  `ambient` models the ambient
clock/entropy (never read by the source). -/
def generate_lpp_references_manual (ambient : Nat) : List (String × List Nat) :=
  [ ("lpp_temperature_25_5", [0x01, 0x67, 0x00, 0xFF]),
    ("lpp_humidity_65", [0x02, 0x68, 0x82]),
    ("lpp_analog_3_3", [0x03, 0x02, 0x01, 0x4A]),
    ("lpp_gps_sf",
      [0x04, 0x88,
       0x05, 0xC3, 0x95,
       0xED, 0x51, 0xFE,
       0x00, 0x03, 0xE8]),
    ("lpp_barometer_1013", [0x05, 0x73, 0x27, 0x94]),
    ("lpp_accelerometer_1g", [0x06, 0x71, 0x00, 0x00, 0x00, 0x00, 0x03, 0xE8]) ]

/-- Dictionary access `references[name]` on the generated mapping. -/
def lookupReference (table : List (String × List Nat)) (name : String) :
    Option (List Nat) :=
  table.lookup name

/-- `UnknownKind`: the only encoder error relevant to registry lookup. -/
inductive EncodeError where
  | UnknownKind
  deriving DecidableEq

/-- Modelled from the spec: the encoder entrypoint
`encode(command, args) -> EncodedFrame`, which fails with `UnknownKind` for
an identifier outside the registry; the encoder itself is not part of this
repository snapshot (only the reference generator is), so the registry it
consults is the reference table generated from the source, with canonical
arguments fixed, and lookup is the exact-identifier dictionary access the
spec prescribes. -/
def encode (ambient : Nat) (kind : String) : Except EncodeError (List Nat) :=
  match lookupReference (generate_packet_builder_references ambient) kind with
  | some b => Except.ok b
  | none => Except.error EncodeError.UnknownKind

/-- The opcode of each reference entry's command kind (first byte per the
command table: appStart 0x01, deviceQuery 0x16, ..., sendTrace 0x24). -/
def referenceKindOpcode : List (String × Nat) :=
  [ ("appStart", 0x01),
    ("deviceQuery", 0x16),
    ("getBattery", 0x14),
    ("getTime", 0x05),
    ("setTime_1704067200", 0x06),
    ("setName_TestNode", 0x08),
    ("setCoords_SF", 0x0E),
    ("setTxPower_20", 0x0C),
    ("setRadio_default", 0x0B),
    ("sendAdvertisement", 0x07),
    ("sendAdvertisement_flood", 0x07),
    ("reboot", 0x13),
    ("getContacts", 0x04),
    ("getMessage", 0x0A),
    ("sendMessage_Hello", 0x02),
    ("sendCommand_status", 0x02),
    ("sendChannelMessage_0_Hi", 0x03),
    ("sendLogin", 0x1A),
    ("sendLogout", 0x1D),
    ("sendStatusRequest", 0x1B),
    ("getChannel_0", 0x1F),
    ("setChannel_0_General", 0x20),
    ("getStatsCore", 0x38),
    ("getStatsRadio", 0x38),
    ("getStatsPackets", 0x38),
    ("getSelfTelemetry", 0x27),
    ("exportPrivateKey", 0x17),
    ("signStart", 0x21),
    ("signFinish", 0x23),
    ("pathDiscovery", 0x34),
    ("sendTrace", 0x24) ]

/-- The opcode expected for a given reference entry name. -/
def referenceOpcode (name : String) : Option Nat :=
  referenceKindOpcode.lookup name

/-- A key not paired with any value in an association list is not found by
dictionary lookup. -/
theorem lookup_eq_none_of_not_mem_keys {β : Type} (k : String)
    (t : List (String × β)) (h : k ∉ t.map Prod.fst) : t.lookup k = none := by
  induction t with
  | nil => rfl
  | cons e rest ih =>
    obtain ⟨a, b⟩ := e
    have hne : (k == a) = false := by
      simp only [List.map_cons, List.mem_cons] at h
      simp only [beq_eq_false_iff_ne, ne_eq]
      exact fun hk => h (Or.inl hk)
    have hrest : k ∉ rest.map Prod.fst := by
      simp only [List.map_cons, List.mem_cons] at h
      exact fun hk => h (Or.inr hk)
    simpa [List.lookup, hne] using ih hrest

/-- Dictionary lookup only ever returns a value actually paired with the
looked-up key. -/
theorem mem_of_lookup_eq_some {β : Type} {k : String} {t : List (String × β)}
    {b : β} (h : t.lookup k = some b) : (k, b) ∈ t := by
  induction t with
  | nil => simp [List.lookup] at h
  | cons e rest ih =>
    obtain ⟨a, c⟩ := e
    by_cases hk : k = a
    · subst hk
      simp only [List.lookup, beq_self_eq_true] at h
      simp only [List.mem_cons]
      exact Or.inl (by simpa using congrArg (Option.getD · c) h.symm)
    · have hne : (k == a) = false := beq_eq_false_iff_ne.mpr hk
      simp only [List.lookup, hne] at h
      exact List.mem_cons_of_mem _ (ih h)

/-- Dictionary lookup succeeds on every key present in the association list. -/
theorem lookup_isSome_of_mem_keys {β : Type} {k : String}
    {t : List (String × β)} (h : k ∈ t.map Prod.fst) :
    ∃ b, t.lookup k = some b := by
  induction t with
  | nil => simp at h
  | cons e rest ih =>
    obtain ⟨a, c⟩ := e
    by_cases hk : k = a
    · subst hk
      exact ⟨c, by simp [List.lookup]⟩
    · have hne : (k == a) = false := beq_eq_false_iff_ne.mpr hk
      have hrest : k ∈ rest.map Prod.fst := by
        simp only [List.map_cons, List.mem_cons] at h
        exact h.resolve_left hk
      obtain ⟨b, hb⟩ := ih hrest
      exact ⟨b, by simp [List.lookup, hne, hb]⟩

/-- C1 (counterexample): the claimed golden sequence
`06 00 AC 65 A5 65` does not match the code; the `setTime_1704067200`
entry is not that byte sequence. -/
theorem setTime_not_claimed_golden :
    lookupReference (generate_packet_builder_references 0) ("setTime_1704067200")
      ≠ some [0x06, 0x00, 0xAC, 0x65, 0xA5, 0x65] := by decide

/-- C1 (amended): the `setTime_1704067200` entry is opcode 0x06 followed by
the 4-byte little-endian unsigned encoding of 1704067200, which is the
5-byte sequence `06 80 00 92 65` (1704067200 = 0x65920080). -/
theorem setTime_reference_bytes :
    lookupReference (generate_packet_builder_references 0) ("setTime_1704067200")
      = some ([0x06] ++ toBytesLE 4 1704067200)
  ∧ toBytesLE 4 1704067200 = [0x80, 0x00, 0x92, 0x65] := by decide

/-- C2 (counterexample): the `pathDiscovery` entry does not have length 33
and is not the single opcode byte 0x34 followed immediately by the 32-byte
destination. -/
theorem pathDiscovery_not_claimed_layout :
    (lookupReference (generate_packet_builder_references 0) ("pathDiscovery")).map
        List.length ≠ some 33
  ∧ lookupReference (generate_packet_builder_references 0) ("pathDiscovery")
      ≠ some (0x34 :: dst32pad dst) := by decide

/-- C2 (amended): the `pathDiscovery` entry is the opcode byte 0x34, then a
0x00 byte, then the 32-byte zero-padded destination, for a total length of
34, and its byte at index 2 is the first byte of the destination. -/
theorem pathDiscovery_reference_bytes :
    lookupReference (generate_packet_builder_references 0) ("pathDiscovery")
      = some ([0x34, 0x00] ++ dst32pad dst)
  ∧ ([0x34, 0x00] ++ dst32pad dst).length = 34
  ∧ ([0x34, 0x00] ++ dst32pad dst)[2]? = (dst32pad dst)[0]? := by decide

/-- C3 (counterexample): the `lpp_barometer_1013` entry is not
`05 73 27 95`; the code does not carry the rounded-to-nearest value 10133. -/
theorem barometer_not_rounded_to_nearest :
    lookupReference (generate_lpp_references_manual 0) ("lpp_barometer_1013")
      ≠ some [0x05, 0x73, 0x27, 0x95] := by decide

/-- C3 (amended): the `lpp_barometer_1013` entry is channel 5, type 0x73,
then the unsigned 16-bit big-endian value 10132 (1013.25 × 10 = 10132.5
rounded down, not to nearest): bytes `05 73 27 94`. -/
theorem barometer_reference_bytes :
    lookupReference (generate_lpp_references_manual 0) ("lpp_barometer_1013")
      = some ([0x05, 0x73] ++ toBytesBE 2 10132)
  ∧ toBytesBE 2 10132 = [0x27, 0x94] := by decide

/-- C4: the `lpp_gps_sf` entry is channel byte 0x04, type byte 0x88, then
latitude × 10000 = 377749, longitude × 10000 = -1224194 and
altitude × 100 = 1000, each as a 3-byte big-endian two's-complement
integer, equal to the 11-byte golden sequence. -/
theorem gps_reference_bytes :
    lookupReference (generate_lpp_references_manual 0) ("lpp_gps_sf")
      = some ([0x04, 0x88] ++ toBytesBEsigned 3 377749
          ++ toBytesBEsigned 3 (-1224194) ++ toBytesBEsigned 3 1000)
  ∧ [0x04, 0x88] ++ toBytesBEsigned 3 377749
      ++ toBytesBEsigned 3 (-1224194) ++ toBytesBEsigned 3 1000
      = [0x04, 0x88, 0x05, 0xC3, 0x95, 0xED, 0x51, 0xFE, 0x00, 0x03, 0xE8] := by
  decide

/-- C5: the `setChannel_0_General` entry is opcode bytes 0x20 0x00, then the
7 UTF-8 bytes of "General" right-padded with zero bytes to exactly 32 bytes,
then the 16 secret bytes 0..15 unchanged: a 50-byte frame. -/
theorem setChannel_reference_bytes :
    lookupReference (generate_packet_builder_references 0) ("setChannel_0_General")
      = some ([0x20, 0x00] ++ (utf8ascii ("General") ++ List.replicate 25 0)
          ++ List.range 16)
  ∧ (utf8ascii ("General")).length = 7
  ∧ (ljustBytes 32 (utf8ascii ("General"))).length = 32
  ∧ ([0x20, 0x00] ++ (utf8ascii ("General") ++ List.replicate 25 0)
      ++ List.range 16).length = 50 := by decide

/-- C6: for every destination of at most 32 bytes, the 32-byte destination
field of the sendLogin, sendLogout, sendStatusRequest and pathDiscovery
frames is exactly 32 bytes long, the destination bytes followed by zero
padding on the right, and sits right after the opcode byte(s). -/
theorem dst32_field_exact (pfx : List Nat) (h : pfx.length ≤ 32) :
    (dst32pad pfx).length = 32
  ∧ (dst32pad pfx).take pfx.length = pfx
  ∧ (dst32pad pfx).drop pfx.length = List.replicate (32 - pfx.length) 0
  ∧ (∀ pw, (sendLoginFrame pfx pw).drop 1 = dst32pad pfx ++ pw)
  ∧ (sendLogoutFrame pfx).drop 1 = dst32pad pfx
  ∧ (sendStatusRequestFrame pfx).drop 1 = dst32pad pfx
  ∧ (pathDiscoveryFrame pfx).drop 2 = dst32pad pfx := by
  refine ⟨?_, ?_, ?_, fun pw => rfl, rfl, rfl, rfl⟩
  · simp only [dst32pad, ljustBytes, List.length_append, List.length_replicate]
    omega
  · simp [dst32pad, ljustBytes, List.take_left]
  · simp [dst32pad, ljustBytes, List.drop_left]

/-- C6 witness: instantiated at the script's 6-byte destination. -/
theorem dst32_field_exact_witness :
    dst.length ≤ 32
  ∧ (dst32pad dst).length = 32
  ∧ (dst32pad dst).drop dst.length = List.replicate (32 - dst.length) 0 :=
  ⟨by decide, (dst32_field_exact dst (by decide)).1,
    (dst32_field_exact dst (by decide)).2.2.1⟩

/-- C7: both generators are deterministic; their output does not depend on
the ambient clock/entropy, so two invocations produce identical mappings. -/
theorem encoders_deterministic (a1 a2 : Nat) :
    generate_packet_builder_references a1 = generate_packet_builder_references a2
  ∧ generate_lpp_references_manual a1 = generate_lpp_references_manual a2 :=
  ⟨rfl, rfl⟩

/-- C8: an identifier outside the registry makes `encode` fail with
`UnknownKind` (never a byte sequence); an identifier in the registry
succeeds, and only by exact match: the returned bytes are the ones paired
with exactly that identifier. -/
theorem encode_exact_lookup (kind : String) :
    (kind ∉ (generate_packet_builder_references 0).map Prod.fst →
      encode 0 kind = Except.error EncodeError.UnknownKind)
  ∧ (∀ b, encode 0 kind = Except.ok b →
      (kind, b) ∈ generate_packet_builder_references 0)
  ∧ (kind ∈ (generate_packet_builder_references 0).map Prod.fst →
      ∃ b, encode 0 kind = Except.ok b) := by
  refine ⟨fun h => ?_, fun b hb => ?_, fun h => ?_⟩
  · have := lookup_eq_none_of_not_mem_keys kind
      (generate_packet_builder_references 0) h
    simp [encode, lookupReference, this]
  · have hl : lookupReference (generate_packet_builder_references 0) kind = some b := by
      by_cases hs : ∃ c, lookupReference (generate_packet_builder_references 0) kind = some c
      · obtain ⟨c, hc⟩ := hs
        simp only [encode, hc] at hb
        exact hc.trans (congrArg some (by simpa using hb))
      · have hn : lookupReference (generate_packet_builder_references 0) kind = none := by
          cases hx : lookupReference (generate_packet_builder_references 0) kind with
          | none => rfl
          | some c => exact absurd ⟨c, hx⟩ hs
        simp [encode, hn] at hb
    exact mem_of_lookup_eq_some hl
  · obtain ⟨b, hb⟩ := lookup_isSome_of_mem_keys h
    exact ⟨b, by simp [encode, lookupReference, hb]⟩

/-- C8 witness: a concrete unknown identifier fails with `UnknownKind`, and
a concrete registered identifier succeeds. -/
theorem encode_exact_lookup_witness :
    encode 0 ("unknownCommand") = Except.error EncodeError.UnknownKind
  ∧ ∃ b, encode 0 ("getTime") = Except.ok b :=
  ⟨(encode_exact_lookup ("unknownCommand")).1 (by decide),
   (encode_exact_lookup ("getTime")).2.2 (by decide)⟩

/-- C9: every entry of the command reference mapping is non-empty and its
first byte is the opcode of its command kind. -/
theorem references_first_byte_opcode :
    ∀ e ∈ generate_packet_builder_references 0,
      e.2 ≠ [] ∧ e.2.head? = referenceOpcode e.1 := by decide

/-- C9 witness: instantiated at the `getTime` entry. -/
theorem references_first_byte_opcode_witness :
    (("getTime", ([0x05] : List Nat)) ∈ generate_packet_builder_references 0)
  ∧ (([0x05] : List Nat) ≠ [] ∧ ([0x05] : List Nat).head? = referenceOpcode ("getTime")) :=
  ⟨by decide, references_first_byte_opcode ("getTime", [0x05]) (by decide)⟩

/-- C10: the 32-byte destination used by the reference frames is the 6-byte
short destination 01 23 45 67 89 AB followed by 26 zero bytes; the
`sendLogout` entry is exactly the 33 bytes 0x1D, the 6 destination bytes,
then 26 zero bytes, and `sendLogin`, `sendStatusRequest` and `pathDiscovery`
embed the same 32-byte destination. -/
theorem sendLogout_dst32_value :
    dst32pad dst = dst ++ List.replicate 26 0
  ∧ dst = [0x01, 0x23, 0x45, 0x67, 0x89, 0xAB]
  ∧ lookupReference (generate_packet_builder_references 0) ("sendLogout")
      = some ([0x1D] ++ dst ++ List.replicate 26 0)
  ∧ (lookupReference (generate_packet_builder_references 0) ("sendLogout")).map
      List.length = some 33
  ∧ (lookupReference (generate_packet_builder_references 0) ("sendLogin")).map
      (fun b => (b.drop 1).take 32) = some (dst32pad dst)
  ∧ (lookupReference (generate_packet_builder_references 0) ("sendStatusRequest")).map
      (fun b => b.drop 1) = some (dst32pad dst)
  ∧ (lookupReference (generate_packet_builder_references 0) ("pathDiscovery")).map
      (fun b => b.drop 2) = some (dst32pad dst) := by decide

end PocketMesh
